import Mathlib

/-!
# Verification of the rendez-vous-seeker monitor

Shallow embedding of the page classifier (`src/page_detector.py`), the
availability check (`src/monitor/handlers/availability_handler.py`), the
monitor state machine (`src/monitor/core.py`), the anti-detection session
utilities (`src/utils.py`) and the content-normalisation pipeline
(`src/utils.py` / `src/monitor.py`), together with proofs and refutations
of the specification's claims about them.

Strings are modelled as `List Char`; Python's `needle in haystack` test
becomes `hasSub`, and Python's `str.lower()` becomes a character-wise
`pyLower` (they agree on the ASCII and accented characters the code uses).
-/

set_option autoImplicit false

/-- `String` to character-list coercion used throughout the model. -/
def str (s : String) : List Char := s.data

/-- Python `str.lower()`, modelled character-wise. -/
def pyLower (l : List Char) : List Char := l.map Char.toLower

/-- Does `hay` start with `needle`? -/
def startsWithL : List Char → List Char → Bool
  | [], _ => true
  | _ :: _, [] => false
  | n :: ns, h :: hs => n == h && startsWithL ns hs

/-- Python's `needle in hay` substring test. -/
def hasSub : List Char → List Char → Bool
  | needle, [] => startsWithL needle []
  | needle, h :: t => startsWithL needle (h :: t) || hasSub needle t

/-! ## Page detector (`src/page_detector.py`) -/

/-- `PageType` enumeration from `src/page_detector.py`. -/
inductive PageType where
  | UNKNOWN
  | BLOCKED
  | MAINTENANCE
  | ERROR
  | LOADING
  | AVAILABLE
  | UNAVAILABLE
  | LOGIN_REQUIRED
  | CAPTCHA
  | INITIAL
  deriving DecidableEq, Repr

/-- `PageDetector.blocked_indicators`. -/
def blocked_indicators : List (List Char) :=
  [str "cloudflare", str "attention required", str "sorry, you have been blocked",
   str "you are unable to access", str "security service", str "cf-wrapper",
   str "cf-error-details"]

/-- `PageDetector.maintenance_indicators` (the source lists "maintenance" twice). -/
def maintenance_indicators : List (List Char) :=
  [str "maintenance", str "maintenance", str "indisponible", str "temporairement",
   str "service temporairement indisponible", str "maintenance en cours"]

/-- `PageDetector.error_indicators`. -/
def error_indicators : List (List Char) :=
  [str "erreur", str "error", str "page not found", str "404", str "500",
   str "503", str "service unavailable"]

/-- `PageDetector.loading_indicators`. -/
def loading_indicators : List (List Char) :=
  [str "chargement", str "loading", str "veuillez patienter", str "please wait"]

/-- `PageDetector.availability_indicators`. -/
def availability_indicators : List (List Char) :=
  [str "disponible", str "available", str "libre", str "free", str "réserver",
   str "reserve", str "choisir", str "select", str "creneau", str "slot",
   str "rendez-vous", str "appointment", str "horaire", str "schedule",
   str "placer", str "place"]

/-- `PageDetector.login_indicators`. -/
def login_indicators : List (List Char) :=
  [str "connexion", str "login", str "se connecter", str "identifiant",
   str "mot de passe", str "password"]

/-- `PageDetector.captcha_indicators`. -/
def captcha_indicators : List (List Char) :=
  [str "captcha", str "code de sécurité", str "recopier le code",
   str "captchaformulaireextinput", str "captchaid", str "captchausercode"]

/-- `PageDetector.initial_indicators` (defined in the source but, as proved
below, never consulted by `detect_page_type`). -/
def initial_indicators : List (List Char) :=
  [str "que souhaitez-vous faire", str "prendre un rendez-vous",
   str "gérer mes rendez-vous", str "étape 1 sur 6"]

/-- The `for indicator in indicators: if indicator in page_source or indicator
in page_title` loop shared by all the `PageDetector._is_*` helpers. -/
def anyIndicator (inds : List (List Char)) (page_source page_title : List Char) : Bool :=
  inds.any fun ind => hasSub ind page_source || hasSub ind page_title

/-- `PageDetector._is_blocked`. -/
def is_blocked (s t : List Char) : Bool := anyIndicator blocked_indicators s t

/-- `PageDetector._is_maintenance`. -/
def is_maintenance (s t : List Char) : Bool := anyIndicator maintenance_indicators s t

/-- `PageDetector._is_error`. -/
def is_error (s t : List Char) : Bool := anyIndicator error_indicators s t

/-- `PageDetector._is_loading`. -/
def is_loading (s t : List Char) : Bool := anyIndicator loading_indicators s t

/-- `PageDetector._is_login_required`. -/
def is_login_required (s t : List Char) : Bool := anyIndicator login_indicators s t

/-- `PageDetector._is_captcha`. -/
def is_captcha (s t : List Char) : Bool := anyIndicator captcha_indicators s t

/-- `PageDetector._is_initial` (dead code in the source: `detect_page_type`
never calls it). -/
def is_initial (s t : List Char) : Bool := anyIndicator initial_indicators s t

/-- `PageDetector._is_available`. -/
def is_available (s t : List Char) : Bool := anyIndicator availability_indicators s t

/-- Title marker for the captcha page ("Constituez votre dossier"). -/
def captchaTitleMarker : List Char := str "constituez votre dossier"

/-- Title marker for the appointment page ("Choisissez votre créneau"). -/
def appointmentTitleMarker : List Char := str "choisissez votre créneau"

/-- Title marker for the landing page ("accueil"). -/
def accueilTitleMarker : List Char := str "accueil"

/-- The content-indicator cascade at the end of
`PageDetector.detect_page_type` ("THEN: Check by content (less reliable)"). -/
def content_cascade (s t : List Char) : PageType :=
  if is_blocked s t then .BLOCKED
  else if is_maintenance s t then .MAINTENANCE
  else if is_error s t then .ERROR
  else if is_loading s t then .LOADING
  else if is_login_required s t then .LOGIN_REQUIRED
  else if is_available s t then .AVAILABLE
  else .UNAVAILABLE

/-- `PageDetector.detect_page_type`, as a function of the raw page title and
raw page source.  The source lowers `page_source` once and `page_title` at
each comparison; the `except` branch returning `UNKNOWN` covers browser
failures, which are outside this model. -/
def detect_page_type (title source : List Char) : PageType :=
  let s := pyLower source
  let t := pyLower title
  if hasSub captchaTitleMarker t then .CAPTCHA
  else if is_captcha s t then .CAPTCHA
  else if hasSub appointmentTitleMarker t then .UNAVAILABLE
  else if hasSub accueilTitleMarker t then .INITIAL
  else content_cascade s t

/-! ## Availability check (`src/monitor/handlers/availability_handler.py`) -/

/-- The negative phrase looked for by `AvailabilityHandler.check_availability`. -/
def noSlotPhrase : List Char := str "aucun créneau disponible"

/-- `AvailabilityHandler.check_availability` as a function of the page source
(the `driver is None` / exception branches concern the external browser).
Returns the boolean component together with the detail string of the source. -/
def check_availability (source : List Char) : Bool × List Char :=
  if hasSub noSlotPhrase (pyLower source) then
    (false, str "Aucun créneau disponible found - no slots available")
  else
    (true, str "No 'Aucun créneau disponible' found - slots are available")

/-! ## Monitor state machine (`src/monitor/core.py`) -/

/-- `MonitorState` from `src/monitor/states.py`. -/
inductive MonitorState where
  | INITIAL
  | NAVIGATING
  | CAPTCHA_WAIT
  | MONITORING
  | AVAILABLE
  deriving DecidableEq, Repr

/-- `RDVMonitor.__init__` sets `self.state = MonitorState.MONITORING`
("Start directly in monitoring state") in `src/monitor/core.py`. -/
def initial_monitor_state : MonitorState := .MONITORING

/-- `RDVMonitor.__init__` of the legacy module `src/monitor.py`, which is
shadowed by the `src/monitor/` package when `from src.monitor import
RDVMonitor` resolves. -/
def legacy_initial_monitor_state : MonitorState := .INITIAL

/-- Observable effects of one `_process_current_page` cycle: each constructor
records an invocation of a handler / notification in `src/monitor/core.py`
and `src/monitor/handlers/`. -/
inductive MonEvent where
  | captchaDetected      -- CaptchaHandler.handle_captcha_detected
  | captchaWaiting       -- CaptchaHandler.handle_captcha_waiting
  | captchaCompleted     -- CaptchaHandler.handle_captcha_completed
  | availabilityDetected -- AvailabilityHandler.handle_availability_detected
  | availabilityReminder -- AvailabilityHandler.handle_availability_reminder
  | availabilityLost     -- AvailabilityHandler.handle_availability_lost
  | appointmentSlotsFound -- handle_appointment_page_check found slots
  | noSlotsLogged        -- appointment page, no slots (log only)
  | unavailableLogged    -- regular unavailable page in MONITORING (log only)
  | navigationComplete   -- PageHandlers.handle_navigation_complete
  | descriptionLogged    -- the fall-through log of _handle_unavailable_page
  | notMonitoringLogged  -- available page seen outside MONITORING/AVAILABLE
  | initialHandled       -- PageHandlers.handle_initial_page
  | blockedHandled       -- PageHandlers.handle_blocked_page
  | maintenanceHandled   -- PageHandlers.handle_maintenance_page
  | errorHandled         -- PageHandlers.handle_error_page
  | loadingHandled       -- PageHandlers.handle_loading_page
  | unknownLogged        -- UNKNOWN page warning
  deriving DecidableEq, Repr

/-- One page observation, as consumed by `_process_current_page`: the detected
page type, the raw title and source, and the outcome of the external
"Prendre un rendez-vous" click attempted on initial pages. -/
structure PageObs where
  ptype : PageType
  title : List Char
  source : List Char
  clickOk : Bool
  deriving Repr

/-- `RDVMonitor._handle_captcha_page`. -/
def handle_captcha_page (st : MonitorState) : MonitorState × List MonEvent :=
  if st ≠ .CAPTCHA_WAIT then (.CAPTCHA_WAIT, [.captchaDetected])
  else (st, [.captchaWaiting])

/-- `RDVMonitor._handle_initial_page`. -/
def handle_initial_page (st : MonitorState) (clickOk : Bool) : MonitorState × List MonEvent :=
  if clickOk then (.NAVIGATING, [.initialHandled]) else (st, [.initialHandled])

/-- `RDVMonitor._handle_available_page`. -/
def handle_available_page (st : MonitorState) (title source : List Char) :
    MonitorState × List MonEvent :=
  if st = .MONITORING then (.AVAILABLE, [.availabilityDetected])
  else if st = .AVAILABLE then
    if hasSub appointmentTitleMarker (pyLower title) then
      if (check_availability source).1 = false then
        (.MONITORING, [.availabilityReminder, .availabilityLost])
      else (st, [.availabilityReminder])
    else (st, [.availabilityReminder])
  else (st, [.notMonitoringLogged])

/-- `RDVMonitor._handle_unavailable_page`. -/
def handle_unavailable_page (st : MonitorState) (title source : List Char) :
    MonitorState × List MonEvent :=
  if st = .MONITORING then
    if hasSub appointmentTitleMarker (pyLower title) then
      if (check_availability source).1 then (.AVAILABLE, [.appointmentSlotsFound])
      else (.MONITORING, [.noSlotsLogged])
    else (.MONITORING, [.unavailableLogged])
  else if st = .NAVIGATING then (.MONITORING, [.navigationComplete])
  else (st, [.descriptionLogged])

/-- `RDVMonitor._handle_page_type`. -/
def handle_page_type (st : MonitorState) (obs : PageObs) : MonitorState × List MonEvent :=
  match obs.ptype with
  | .BLOCKED => (st, [.blockedHandled])
  | .MAINTENANCE => (st, [.maintenanceHandled])
  | .ERROR => (st, [.errorHandled])
  | .LOADING => (st, [.loadingHandled])
  | .CAPTCHA => handle_captcha_page st
  | .INITIAL => handle_initial_page st obs.clickOk
  | .AVAILABLE => handle_available_page st obs.title obs.source
  | .UNAVAILABLE => handle_unavailable_page st obs.title obs.source
  | _ => (st, [.unknownLogged])

/-- `RDVMonitor._process_current_page`: the captcha-completed check followed
by the page-type dispatch (the `check_count` bookkeeping is omitted). -/
def process_current_page (st : MonitorState) (obs : PageObs) : MonitorState × List MonEvent :=
  let pre := if st = .CAPTCHA_WAIT ∧ obs.ptype ≠ .CAPTCHA
    then (MonitorState.MONITORING, [MonEvent.captchaCompleted])
    else (st, [])
  let post := handle_page_type pre.1 obs
  (post.1, pre.2 ++ post.2)

/-! ## Anti-detection session (`src/utils.py`, class `AntiDetectionUtils`) -/

/-- The session counters mutated by `AntiDetectionUtils`; the wall-clock
baseline `session_start_time` is modelled by the per-call boolean
`timeExceeded` standing for `time.time() - session_start_time > 3600`. -/
structure SessionState where
  request_count : Nat
  deriving DecidableEq, Repr

/-- `AntiDetectionUtils.reset_session` (and the initial state). -/
def reset_session : SessionState := ⟨0⟩

/-- `AntiDetectionUtils.should_rotate_session`: returns the decision and the
updated counters.  `enabled` is `config.anti_detection.enable_session_rotation`,
`interval` is `config.anti_detection.session_rotation_interval`. -/
def should_rotate_session (enabled : Bool) (interval : Nat) (timeExceeded : Bool)
    (s : SessionState) : Bool × SessionState :=
  if enabled = false then (false, s)
  else
    let s2 : SessionState := ⟨s.request_count + 1⟩
    ((s2.request_count % interval == 0) || timeExceeded, s2)

/-- State of the session counters after `k` calls of `should_rotate_session`
since the last reset, all with the time ceiling not exceeded. -/
def session_after : Bool → Nat → Nat → SessionState
  | _, _, 0 => reset_session
  | enabled, interval, k + 1 =>
    (should_rotate_session enabled interval false (session_after enabled interval k)).2

/-- Result of the `k`-th call (1-based) of `should_rotate_session` since the
last reset, with the time ceiling never exceeded. -/
def rotate_call_result (enabled : Bool) (interval k : Nat) : Bool :=
  (should_rotate_session enabled interval false (session_after enabled interval (k - 1))).1

/-! ## Delays (`src/utils.py` and `src/monitor/utils/delay_utils.py`) -/

/-- CPython's `random.uniform(a, b) = a + (b - a) * random()`, with the
underlying `random()` draw `r ∈ [0, 1]` passed explicitly. -/
def random_uniform (a b r : ℚ) : ℚ := a + (b - a) * r

/-- `AntiDetectionUtils.get_random_delay`: returns `0` when random delays are
disabled, otherwise `random.uniform(min_random_delay, max_random_delay)`. -/
def get_random_delay (enabledRandom : Bool) (minD maxD r : ℚ) : ℚ :=
  if enabledRandom = false then 0 else random_uniform minD maxD r

/-- The duration slept by `DelayManager.smart_delay`: `get_random_delay()`
when random delays are enabled, else the fixed `base_interval`. -/
def smart_delay_duration (enabledRandom : Bool) (baseInterval minD maxD r : ℚ) : ℚ :=
  if enabledRandom then get_random_delay enabledRandom minD maxD r else baseInterval

/-! ## Content normalisation (`HashUtils.normalize_content` in `src/utils.py`)

Each `re.sub(pattern, '', content)` call is modelled by a matcher returning
the length of the (leftmost, greedy) match of `pattern` at the head of the
list, if any, and a scanner `subDel` that deletes non-overlapping matches
left to right — exactly `re.sub`'s semantics for these patterns. -/

/-- Matcher for the tail `:\d\d:\d\d` of the timestamp pattern. -/
def isTimeTail : List Char → Bool
  | a :: m1 :: m2 :: b :: s1 :: s2 :: _ =>
    a == ':' && m1.isDigit && m2.isDigit && b == ':' && s1.isDigit && s2.isDigit
  | _ => false

/-- Leftmost match length of `\d{1,2}:\d{2}:\d{2}` at the head of the list
(the hour is greedy: two digits are preferred over one). -/
def timeM : List Char → Option Nat
  | c1 :: c2 :: rest =>
    if c1.isDigit && c2.isDigit && isTimeTail rest then some 8
    else if c1.isDigit && isTimeTail (c2 :: rest) then some 7
    else none
  | _ => none

/-- Match length of `\d{4}-\d{2}-\d{2}` at the head of the list. -/
def dateM : List Char → Option Nat
  | y1 :: y2 :: y3 :: y4 :: h1 :: m1 :: m2 :: h2 :: d1 :: d2 :: _ =>
    if y1.isDigit && y2.isDigit && y3.isDigit && y4.isDigit && h1 == '-' &&
       m1.isDigit && m2.isDigit && h2 == '-' && d1.isDigit && d2.isDigit
    then some 10 else none
  | _ => none

/-- Length of a `[^"]*"` match at the head of the list (up to and including
the first double quote), if the quote exists. -/
def scanQuote : List Char → Option Nat
  | [] => none
  | c :: r => if c == '"' then some 1 else (scanQuote r).map (fun k => k + 1)

/-- Match length of `id="[^"]*"` at the head of the list. -/
def idM : List Char → Option Nat
  | i1 :: i2 :: e1 :: q1 :: rest =>
    if i1 == 'i' && i2 == 'd' && e1 == '=' && q1 == '"' then
      (scanQuote rest).map (fun k => 4 + k)
    else none
  | _ => none

/-- Length of a `[^=]*="[^"]*"` match at the head of the list: the chars up
to the first `=` (which must be immediately followed by `"`), then up to the
closing quote. -/
def scanEq : List Char → Option Nat
  | [] => none
  | c :: r =>
    if c == '=' then
      match r with
      | q :: r2 => if q == '"' then (scanQuote r2).map (fun k => 2 + k) else none
      | [] => none
    else (scanEq r).map (fun k => 1 + k)

/-- Match length of `data-[^=]*="[^"]*"` at the head of the list. -/
def dataM : List Char → Option Nat
  | a1 :: a2 :: a3 :: a4 :: a5 :: rest =>
    if a1 == 'd' && a2 == 'a' && a3 == 't' && a4 == 'a' && a5 == '-' then
      (scanEq rest).map (fun k => 5 + k)
    else none
  | _ => none

/-- Helper for `subDel`: while the first argument is positive, the head
characters belong to a match being deleted; at `0`, look for a fresh match. -/
def subDelGo (M : List Char → Option Nat) : Nat → List Char → List Char
  | _, [] => []
  | k + 1, _ :: cs => subDelGo M k cs
  | 0, c :: cs =>
    match M (c :: cs) with
    | some (n + 1) => subDelGo M n cs
    | some 0 => c :: subDelGo M 0 cs
    | none => c :: subDelGo M 0 cs

/-- `re.sub(pattern, '', content)` for a matcher `M` that never matches the
empty string: scan left to right, deleting each leftmost match. -/
def subDel (M : List Char → Option Nat) (l : List Char) : List Char := subDelGo M 0 l

/-- Python's `\s` character class (ASCII part). -/
def pyIsSpace (c : Char) : Bool :=
  c == ' ' || c == '\t' || c == '\n' || c == '\r' || c == '\x0b' || c == '\x0c'

/-- Helper for `collapseWs`: the flag records whether the previous character
was whitespace (i.e. a run is in progress). -/
def collapseWsGo : Bool → List Char → List Char
  | _, [] => []
  | inRun, c :: r =>
    if pyIsSpace c then
      if inRun then collapseWsGo true r else ' ' :: collapseWsGo true r
    else c :: collapseWsGo false r

/-- `re.sub(r'\s+', ' ', content)`: collapse every whitespace run to a single
space. -/
def collapseWs (l : List Char) : List Char := collapseWsGo false l

/-- Python's `str.strip()` (whitespace model restricted to ASCII). -/
def pyStrip (l : List Char) : List Char :=
  ((l.dropWhile pyIsSpace).reverse.dropWhile pyIsSpace).reverse

/-- `HashUtils.normalize_content`: remove `\d{1,2}:\d{2}:\d{2}` timestamps,
`\d{4}-\d{2}-\d{2}` dates, `id="..."` and `data-...="..."` attributes,
collapse whitespace and strip. -/
def normalize_content (content : List Char) : List Char :=
  pyStrip (collapseWs (subDel dataM (subDel idM (subDel dateM (subDel timeM content)))))

/-- `RDVMonitor._get_page_hash` (`src/monitor.py`): normalise the page
source, clean it with BeautifulSoup (script/style removal and dynamic
attribute dropping, an external library modelled as the parameter
`soupClean`), then hash (`hashlib.md5`, modelled as the parameter `md5`). -/
def get_page_hash (soupClean md5 : List Char → List Char) (html : List Char) : List Char :=
  md5 (soupClean (normalize_content html))

/-! ## Spec-side and rule-table classifiers (for the order claim) -/

/-- The classifier as the spec words it (for comparison with
`detect_page_type`): strict priority order CAPTCHA → LOGIN_REQUIRED →
BLOCKED → MAINTENANCE → ERROR → LOADING → INITIAL → AVAILABLE →
UNAVAILABLE, each page type owning its indicator set (title indicators
first), first match wins, default UNAVAILABLE. -/
def spec_classify (title source : List Char) : PageType :=
  let s := pyLower source
  let t := pyLower title
  if hasSub captchaTitleMarker t || is_captcha s t then .CAPTCHA
  else if is_login_required s t then .LOGIN_REQUIRED
  else if is_blocked s t then .BLOCKED
  else if is_maintenance s t then .MAINTENANCE
  else if is_error s t then .ERROR
  else if is_loading s t then .LOADING
  else if hasSub accueilTitleMarker t || is_initial s t then .INITIAL
  else if is_available s t then .AVAILABLE
  else .UNAVAILABLE

/-- The rule table actually evaluated by `detect_page_type`, in source
order: each entry pairs a matcher on the (lowered) source and title with the
page type it yields. -/
def code_rules : List ((List Char → List Char → Bool) × PageType) :=
  [(fun _ t => hasSub captchaTitleMarker t, .CAPTCHA),
   (fun s t => is_captcha s t, .CAPTCHA),
   (fun _ t => hasSub appointmentTitleMarker t, .UNAVAILABLE),
   (fun _ t => hasSub accueilTitleMarker t, .INITIAL),
   (is_blocked, .BLOCKED),
   (is_maintenance, .MAINTENANCE),
   (is_error, .ERROR),
   (is_loading, .LOADING),
   (is_login_required, .LOGIN_REQUIRED),
   (is_available, .AVAILABLE)]

/-- First-match-wins evaluation of an ordered rule table, defaulting to
`UNAVAILABLE`. -/
def eval_rules : List ((List Char → List Char → Bool) × PageType) →
    List Char → List Char → PageType
  | [], _, _ => .UNAVAILABLE
  | r :: rest, s, t => if r.1 s t then r.2 else eval_rules rest s t

/-! ## Token predicates for the digest claim -/

/-- Characters that can occur in a `\d{1,2}:\d{2}:\d{2}` match. -/
def timeChar (c : Char) : Bool := c.isDigit || c == ':'

/-- Characters that can occur in a `\d{4}-\d{2}-\d{2}` match. -/
def dateChar (c : Char) : Bool := c.isDigit || c == '-'

/-- Characters that can occur in either clock-like match. -/
def clockChar (c : Char) : Bool := c.isDigit || c == ':' || c == '-'

/-- `t` is exactly an `HH:MM:SS`-shaped token (`\d{1,2}:\d{2}:\d{2}`). -/
def TimeToken (t : List Char) : Prop := timeM t = some t.length

/-- `t` is exactly a `YYYY-MM-DD`-shaped token (`\d{4}-\d{2}-\d{2}`). -/
def DateToken (t : List Char) : Prop := dateM t = some t.length

/-- `t` is a clock-like token in the sense of the spec. -/
def ClockToken (t : List Char) : Prop := TimeToken t ∨ DateToken t

/-! ## Claim theorems -/

/-- The content cascade can only produce the six content-rule page types or
the UNAVAILABLE default — never INITIAL or CAPTCHA. -/
theorem content_cascade_ne_initial (s t : List Char) :
    content_cascade s t ≠ .INITIAL := by
  unfold content_cascade
  split_ifs <;> simp

/-- C1 (counterexample): on a page whose content contains both a login
indicator and a Cloudflare indicator, the spec's priority order picks
LOGIN_REQUIRED but `detect_page_type` returns BLOCKED: the code checks
blocked indicators before login indicators. -/
theorem spec_order_differs_from_code :
    detect_page_type (str "") (str "login cloudflare") = .BLOCKED ∧
    spec_classify (str "") (str "login cloudflare") = .LOGIN_REQUIRED ∧
    PageType.BLOCKED ≠ PageType.LOGIN_REQUIRED := by
  refine ⟨by decide, by decide, by decide⟩

/-- C1 (amended): `detect_page_type` is first-match-wins evaluation of the
ordered rule table `code_rules`: CAPTCHA by title, CAPTCHA by indicator,
appointment title → UNAVAILABLE, "accueil" title → INITIAL, then BLOCKED →
MAINTENANCE → ERROR → LOADING → LOGIN_REQUIRED → AVAILABLE by indicators
(each sought in content or title), defaulting to UNAVAILABLE. -/
theorem detect_follows_code_rule_order :
    ∀ title source, detect_page_type title source =
      eval_rules code_rules (pyLower source) (pyLower title) := by
  intro title source
  rfl

/-- C2 (counterexample): with session rotation enabled and threshold `N = 2`,
the second call since a reset returns true but the third returns false, so
`should_rotate_session` does not keep returning true once the threshold is
crossed. -/
theorem rotation_not_monotonic :
    rotate_call_result true 2 2 = true ∧ rotate_call_result true 2 3 = false := by
  decide

/-- C2 (amended): between resets, with rotation enabled and the one-hour
ceiling never exceeded, the `k`-th `should_rotate_session` call returns true
exactly when the threshold `N` divides `k` (periodic, not monotonic);
with rotation disabled every call returns false and leaves the counters
unchanged; once the time ceiling is exceeded any call returns true. -/
theorem rotation_signal_periodic :
    (∀ N k, 0 < N → 0 < k → rotate_call_result true N k = (k % N == 0)) ∧
    (∀ N tE s, should_rotate_session false N tE s = (false, s)) ∧
    (∀ N s, (should_rotate_session true N true s).1 = true) := by
  refine ⟨?_, ?_, ?_⟩
  · have hcount : ∀ N k, (session_after true N k).request_count = k := by
      intro N k
      induction k with
      | zero => rfl
      | succ k ih => simp [session_after, should_rotate_session, ih]
    intro N k _ hk
    unfold rotate_call_result
    have hk1 : k - 1 + 1 = k := by omega
    simp [should_rotate_session, hcount, hk1]
  · intro N tE s; rfl
  · intro N s; simp [should_rotate_session]

/-- C2 (witness for `rotation_signal_periodic`): at the default threshold 50,
the 50th call returns true and the 51st returns false. -/
theorem rotation_signal_periodic_witness :
    rotate_call_result true 50 50 = (50 % 50 == 0) ∧
    rotate_call_result true 50 51 = (51 % 50 == 0) :=
  ⟨rotation_signal_periodic.1 50 50 (by decide) (by decide),
   rotation_signal_periodic.1 50 51 (by decide) (by decide)⟩

/-- C3: whenever the page content contains "aucun créneau disponible" the
availability check returns not-available, whatever else the content says;
and the check returns available exactly when the phrase is absent, so on the
appointment page availability is determined solely by the phrase's absence. -/
theorem no_slot_phrase_decides_availability :
    ∀ source,
      (hasSub noSlotPhrase (pyLower source) = true →
        (check_availability source).1 = false) ∧
      ((check_availability source).1 = true ↔
        hasSub noSlotPhrase (pyLower source) = false) := by
  intro source
  unfold check_availability
  cases h : hasSub noSlotPhrase (pyLower source) <;> simp [h]

/-- C3 (witness for `no_slot_phrase_decides_availability`): a page carrying
both the negative phrase and many availability keywords is judged
not-available. -/
theorem no_slot_phrase_decides_availability_witness :
    (check_availability
      (str "réserver un creneau libre disponible - Aucun créneau disponible - choisir")).1
      = false :=
  (no_slot_phrase_decides_availability _).1 (by decide)

/-- C4 (counterexample): the first non-CAPTCHA observation after CAPTCHA_WAIT
does not always leave the monitor in MONITORING: an AVAILABLE observation
drives the cycle's final state to AVAILABLE. -/
theorem captcha_exit_state_not_always_monitoring :
    (process_current_page .CAPTCHA_WAIT
      ⟨.AVAILABLE, str "Rendez-vous", str "un creneau est disponible", false⟩).1
      = .AVAILABLE ∧ MonitorState.AVAILABLE ≠ MonitorState.MONITORING := by
  refine ⟨by decide, by decide⟩

/-- C4 (amended): a CAPTCHA observation outside CAPTCHA_WAIT emits exactly
one CaptchaDetected event and moves the state to CAPTCHA_WAIT; further
CAPTCHA observations in CAPTCHA_WAIT emit no CaptchaDetected; and the first
non-CAPTCHA observation emits a captcha-completed event, resets the state to
MONITORING and then handles the page normally from MONITORING, so the final
state is whatever that handling yields. -/
theorem captcha_wait_transitions :
    (∀ st obs, st ≠ MonitorState.CAPTCHA_WAIT → obs.ptype = PageType.CAPTCHA →
      process_current_page st obs = (.CAPTCHA_WAIT, [.captchaDetected])) ∧
    (∀ obs, obs.ptype = PageType.CAPTCHA →
      process_current_page .CAPTCHA_WAIT obs = (.CAPTCHA_WAIT, [.captchaWaiting])) ∧
    (∀ obs, obs.ptype ≠ PageType.CAPTCHA →
      process_current_page .CAPTCHA_WAIT obs =
        ((handle_page_type .MONITORING obs).1,
          .captchaCompleted :: (handle_page_type .MONITORING obs).2)) := by
  refine ⟨?_, ?_, ?_⟩
  · intro st obs h1 h2
    simp [process_current_page, h1, h2, handle_page_type, handle_captcha_page]
  · intro obs h2
    simp [process_current_page, h2, handle_page_type, handle_captcha_page]
  · intro obs h2
    simp [process_current_page, h2]

/-- C4 (witness for `captcha_wait_transitions`): the three transitions at
concrete observations. -/
theorem captcha_wait_transitions_witness :
    process_current_page .MONITORING ⟨.CAPTCHA, str "Constituez votre dossier", str "captcha", false⟩
      = (.CAPTCHA_WAIT, [.captchaDetected]) ∧
    process_current_page .CAPTCHA_WAIT ⟨.CAPTCHA, str "Constituez votre dossier", str "captcha", false⟩
      = (.CAPTCHA_WAIT, [.captchaWaiting]) ∧
    process_current_page .CAPTCHA_WAIT ⟨.UNAVAILABLE, str "Demande", str "page", false⟩
      = (.MONITORING, [.captchaCompleted, .unavailableLogged]) := by
  refine ⟨captcha_wait_transitions.1 _ _ (by decide) rfl,
          captcha_wait_transitions.2.1 _ rfl, ?_⟩
  have h := captcha_wait_transitions.2.2 ⟨.UNAVAILABLE, str "Demande", str "page", false⟩ (by decide)
  rw [h]; decide

/-- C5: any page whose (lowered) title contains the captcha title marker is
classified CAPTCHA by `detect_page_type`, whatever the content contains. -/
theorem captcha_title_always_wins :
    ∀ title source, hasSub captchaTitleMarker (pyLower title) = true →
      detect_page_type title source = .CAPTCHA := by
  intro title source h
  unfold detect_page_type
  simp [h]

/-- C5 (witness for `captcha_title_always_wins`): the captcha title beats a
content full of blocked/maintenance/error/availability keywords. -/
theorem captcha_title_always_wins_witness :
    detect_page_type (str "Constituez votre dossier")
      (str "cloudflare maintenance erreur chargement connexion disponible")
      = .CAPTCHA :=
  captcha_title_always_wins _ _ (by decide)

/-- C6 (code evaluated at the failing input): the detector classifies the
appointment page with "aucun créneau disponible" as UNAVAILABLE, and
processing that observation in state AVAILABLE only logs the description:
no availability-lost event is emitted and the state stays AVAILABLE,
contrary to the claimed `AVAILABLE × UNAVAILABLE → slots lost, MONITORING`
transition. -/
theorem available_state_ignores_unavailable_page :
    detect_page_type (str "Choisissez votre créneau - Démarches")
      (str "aucun créneau disponible") = .UNAVAILABLE ∧
    process_current_page .AVAILABLE
      ⟨.UNAVAILABLE, str "Choisissez votre créneau - Démarches",
        str "aucun créneau disponible", false⟩
      = (.AVAILABLE, [.descriptionLogged]) := by
  refine ⟨by decide, by decide⟩

/-- C8 (counterexample): the monitor does not start in INITIAL. -/
theorem monitor_does_not_start_initial :
    initial_monitor_state ≠ MonitorState.INITIAL := by
  decide

/-- C8 (amended): the active monitor (`src/monitor/core.py`) starts
unconditionally in MONITORING — there is no configuration switch; only the
shadowed legacy module `src/monitor.py` started in INITIAL. -/
theorem monitor_starts_in_monitoring :
    initial_monitor_state = MonitorState.MONITORING ∧
    legacy_initial_monitor_state = MonitorState.INITIAL := by
  refine ⟨rfl, rfl⟩

/-- C9 (counterexample): with random delays disabled and the configured
window `[5, 10]`, `get_random_delay` returns 0, not the base poll interval
(10 by default). -/
theorem disabled_random_delay_returns_zero :
    get_random_delay false 5 10 (1/2) = 0 ∧ (0 : ℚ) ≠ 10 := by
  refine ⟨rfl, by norm_num⟩

/-- C9 (amended): with random delays enabled, `get_random_delay` lies in the
configured `[min, max]` window (for any underlying uniform draw `r ∈ [0,1]`
with `min ≤ max`), and `DelayManager.smart_delay` sleeps that value; with
randomization disabled `get_random_delay` returns 0 and `smart_delay`
sleeps the fixed base interval instead. -/
theorem delay_window_and_disabled_base :
    (∀ minD maxD r : ℚ, 0 ≤ r → r ≤ 1 → minD ≤ maxD →
      minD ≤ get_random_delay true minD maxD r ∧
        get_random_delay true minD maxD r ≤ maxD) ∧
    (∀ b minD maxD r : ℚ,
      smart_delay_duration true b minD maxD r = get_random_delay true minD maxD r) ∧
    (∀ b minD maxD r : ℚ, smart_delay_duration false b minD maxD r = b) ∧
    (∀ minD maxD r : ℚ, get_random_delay false minD maxD r = 0) := by
  refine ⟨?_, fun b minD maxD r => rfl, fun b minD maxD r => rfl, fun minD maxD r => rfl⟩
  intro minD maxD r h0 h1 hle
  unfold get_random_delay random_uniform
  constructor
  · simp
    nlinarith
  · simp
    nlinarith

/-- C9 (witness for `delay_window_and_disabled_base`): the default window
`[5, 10]` with a mid draw. -/
theorem delay_window_witness :
    (5 : ℚ) ≤ get_random_delay true 5 10 (1/2) ∧
      get_random_delay true 5 10 (1/2) ≤ 10 :=
  delay_window_and_disabled_base.1 5 10 (1/2) (by norm_num) (by norm_num) (by norm_num)

/-- C10: `detect_page_type` returns INITIAL exactly when the lowered title
contains "accueil" and neither the captcha title rule, the captcha indicator
rule, nor the appointment-title rule matched first; in particular a page
whose title lacks "accueil" is never INITIAL, whatever the content (the
content-based `initial_indicators` are never consulted). -/
theorem initial_exactly_by_accueil_title :
    ∀ title source,
      (detect_page_type title source = .INITIAL ↔
        (hasSub captchaTitleMarker (pyLower title) = false ∧
         is_captcha (pyLower source) (pyLower title) = false ∧
         hasSub appointmentTitleMarker (pyLower title) = false ∧
         hasSub accueilTitleMarker (pyLower title) = true)) ∧
      (hasSub accueilTitleMarker (pyLower title) = false →
        detect_page_type title source ≠ .INITIAL) := by
  intro title source
  have hcc := content_cascade_ne_initial (pyLower source) (pyLower title)
  simp only [detect_page_type]
  split_ifs with h1 h2 h3 h4 <;> simp_all

/-- C10 (witness for `initial_exactly_by_accueil_title`): an "Accueil" title
is INITIAL; the same content (an `initial_indicators` phrase!) under another
title is not. -/
theorem initial_exactly_by_accueil_title_witness :
    detect_page_type (str "Accueil") (str "que souhaitez-vous faire") = .INITIAL ∧
    detect_page_type (str "Demande") (str "que souhaitez-vous faire") ≠ .INITIAL :=
  ⟨(initial_exactly_by_accueil_title (str "Accueil") (str "que souhaitez-vous faire")).1.mpr
      (by refine ⟨by decide, by decide, by decide, by decide⟩),
   (initial_exactly_by_accueil_title (str "Demande") (str "que souhaitez-vous faire")).2
      (by decide)⟩

/-! ## Lemmas about `subDel` -/

/-- Skipping `k` characters is the same as dropping them first. -/
theorem subDelGo_eq_drop (M : List Char → Option Nat) :
    ∀ (l : List Char) (k : Nat), subDelGo M k l = subDel M (l.drop k) := by
  intro l
  induction l with
  | nil => intro k; cases k <;> rfl
  | cons c cs ih =>
    intro k
    cases k with
    | zero => rfl
    | succ j => exact ih j

/-- `subDel` on a cons with no match at the head. -/
theorem subDel_cons_none (M : List Char → Option Nat) (c : Char) (cs : List Char)
    (h : M (c :: cs) = none) : subDel M (c :: cs) = c :: subDel M cs := by
  show subDelGo M 0 (c :: cs) = c :: subDel M cs
  unfold subDelGo
  rw [h]
  rfl

/-- `subDel` on a cons with a match of length `n + 1` at the head. -/
theorem subDel_cons_some (M : List Char → Option Nat) (c : Char) (cs : List Char) (n : Nat)
    (h : M (c :: cs) = some (n + 1)) : subDel M (c :: cs) = subDel M (cs.drop n) := by
  show subDelGo M 0 (c :: cs) = subDel M (cs.drop n)
  unfold subDelGo
  rw [h]
  exact subDelGo_eq_drop M cs n

/-- Generic splitting of a left-to-right delete-substitution at a character
that cannot occur inside any match: deletions on the two sides are
independent.  The hypotheses say that matches are nonempty, consist only of
`CS` characters, survive appending on the right, and that a match that fits
inside a prefix is found on the prefix alone. -/
theorem subDel_split (M : List Char → Option Nat) (CS : Char → Bool)
    (hpos : ∀ l n, M l = some n → 0 < n)
    (hchar : ∀ l n i c, M l = some n → i < n → l[i]? = some c → CS c = true)
    (hpersist : ∀ l e n, M l = some n → ∃ m, M (l ++ e) = some m)
    (hshrink : ∀ u c v n, M (u ++ c :: v) = some n → n ≤ u.length → M u = some n) :
    ∀ u v c, CS c = false → subDel M (u ++ c :: v) = subDel M u ++ c :: subDel M v := by
  have hbase : ∀ (v : List Char) (c : Char), CS c = false →
      subDel M ([] ++ c :: v) = subDel M [] ++ c :: subDel M v := by
    intro v c hc
    rw [List.nil_append]
    cases hm : M (c :: v) with
    | none => rw [subDel_cons_none M c v hm]; rfl
    | some n =>
      exfalso
      have h0 : (0 : Nat) < n := hpos _ _ hm
      have hcc := hchar _ _ 0 c hm h0 (by simp)
      rw [hcc] at hc
      cases hc
  suffices H : ∀ (fuel : Nat) (u v : List Char) (c : Char), CS c = false → u.length ≤ fuel →
      subDel M (u ++ c :: v) = subDel M u ++ c :: subDel M v by
    intro u v c hc
    exact H u.length u v c hc le_rfl
  intro fuel
  induction fuel with
  | zero =>
    intro u v c hc hu
    have hun : u = [] := List.eq_nil_of_length_eq_zero (Nat.le_zero.mp hu)
    subst hun
    exact hbase v c hc
  | succ f ih =>
    intro u v c hc hu
    cases u with
    | nil => exact hbase v c hc
    | cons d u' =>
      cases hm : M ((d :: u') ++ c :: v) with
      | none =>
        have hm2 : M (d :: u') = none := by
          cases hm2 : M (d :: u') with
          | none => rfl
          | some n =>
            obtain ⟨m, hmm⟩ := hpersist _ (c :: v) _ hm2
            rw [hm] at hmm
            cases hmm
        have hm' : M (d :: (u' ++ c :: v)) = none := by
          rw [List.cons_append] at hm; exact hm
        rw [List.cons_append, subDel_cons_none M _ _ hm', subDel_cons_none M d u' hm2]
        have hu' : u'.length ≤ f := by simp at hu; omega
        rw [ih u' v c hc hu', List.cons_append]
      | some n =>
        have h0 : 0 < n := hpos _ _ hm
        have hnle : n ≤ (d :: u').length := by
          by_contra hcon
          push_neg at hcon
          have hgc : ((d :: u') ++ c :: v)[(d :: u').length]? = some c := by
            rw [List.getElem?_append_right (le_refl _)]
            simp
          have := hchar _ _ _ _ hm hcon hgc
          rw [this] at hc
          cases hc
        have hmu : M (d :: u') = some n := hshrink _ _ _ _ hm hnle
        obtain ⟨n', rfl⟩ : ∃ n', n = n' + 1 := ⟨n - 1, by omega⟩
        have hm' : M (d :: (u' ++ c :: v)) = some (n' + 1) := by
          rw [List.cons_append] at hm; exact hm
        rw [List.cons_append, subDel_cons_some M _ _ _ hm', subDel_cons_some M _ _ _ hmu]
        have hn'u : n' ≤ u'.length := by simp at hnle; omega
        rw [List.drop_append_of_le_length hn'u]
        have hlen : (u'.drop n').length ≤ f := by simp at hu ⊢; omega
        exact ih (u'.drop n') v c hc hlen

/-! ## Lemmas about the timestamp matcher -/

/-- Inversion for `isTimeTail`. -/
theorem isTimeTail_shape (l : List Char) (h : isTimeTail l = true) :
    ∃ m1 m2 s1 s2 r, l = ':' :: m1 :: m2 :: ':' :: s1 :: s2 :: r ∧
      m1.isDigit = true ∧ m2.isDigit = true ∧ s1.isDigit = true ∧ s2.isDigit = true := by
  rcases l with _ | ⟨a, _ | ⟨m1, _ | ⟨m2, _ | ⟨b, _ | ⟨s1, _ | ⟨s2, r⟩⟩⟩⟩⟩⟩
  · simp [isTimeTail] at h
  · simp [isTimeTail] at h
  · simp [isTimeTail] at h
  · simp [isTimeTail] at h
  · simp [isTimeTail] at h
  · simp [isTimeTail] at h
  · simp only [isTimeTail, Bool.and_eq_true, beq_iff_eq] at h
    obtain ⟨⟨⟨⟨⟨ha, hm1⟩, hm2⟩, hb⟩, hs1⟩, hs2⟩ := h
    subst ha
    subst hb
    exact ⟨m1, m2, s1, s2, r, rfl, hm1, hm2, hs1, hs2⟩

/-- Construction for `isTimeTail`. -/
theorem isTimeTail_build (m1 m2 s1 s2 : Char) (r : List Char)
    (hm1 : m1.isDigit = true) (hm2 : m2.isDigit = true)
    (hs1 : s1.isDigit = true) (hs2 : s2.isDigit = true) :
    isTimeTail (':' :: m1 :: m2 :: ':' :: s1 :: s2 :: r) = true := by
  simp [isTimeTail, hm1, hm2, hs1, hs2]

/-- An eight-character `HH:MM:SS` prefix matches, whatever follows. -/
theorem timeM_build8 (c1 c2 m1 m2 s1 s2 : Char) (r : List Char)
    (h1 : c1.isDigit = true) (h2 : c2.isDigit = true)
    (h3 : m1.isDigit = true) (h4 : m2.isDigit = true)
    (h5 : s1.isDigit = true) (h6 : s2.isDigit = true) :
    timeM (c1 :: c2 :: ':' :: m1 :: m2 :: ':' :: s1 :: s2 :: r) = some 8 := by
  simp [timeM, h1, h2, isTimeTail_build m1 m2 s1 s2 r h3 h4 h5 h6]

/-- A seven-character `H:MM:SS` prefix matches, whatever follows. -/
theorem timeM_build7 (c1 m1 m2 s1 s2 : Char) (r : List Char)
    (h1 : c1.isDigit = true)
    (h3 : m1.isDigit = true) (h4 : m2.isDigit = true)
    (h5 : s1.isDigit = true) (h6 : s2.isDigit = true) :
    timeM (c1 :: ':' :: m1 :: m2 :: ':' :: s1 :: s2 :: r) = some 7 := by
  have hcolon : (':' : Char).isDigit = false := by decide
  simp [timeM, h1, hcolon, isTimeTail_build m1 m2 s1 s2 r h3 h4 h5 h6]

/-- Inversion for `timeM`: a match is a greedy eight-character or a
seven-character timestamp shape at the head. -/
theorem timeM_some_shape (l : List Char) (n : Nat) (h : timeM l = some n) :
    (n = 8 ∧ ∃ c1 c2 m1 m2 s1 s2 r, l = c1 :: c2 :: ':' :: m1 :: m2 :: ':' :: s1 :: s2 :: r ∧
      c1.isDigit = true ∧ c2.isDigit = true ∧ m1.isDigit = true ∧ m2.isDigit = true ∧
      s1.isDigit = true ∧ s2.isDigit = true) ∨
    (n = 7 ∧ ∃ c1 m1 m2 s1 s2 r, l = c1 :: ':' :: m1 :: m2 :: ':' :: s1 :: s2 :: r ∧
      c1.isDigit = true ∧ m1.isDigit = true ∧ m2.isDigit = true ∧
      s1.isDigit = true ∧ s2.isDigit = true) := by
  rcases l with _ | ⟨c1, _ | ⟨c2, rest⟩⟩
  · simp [timeM] at h
  · simp [timeM] at h
  · rw [timeM] at h
    split_ifs at h with h8 h7
    · left
      simp only [Option.some.injEq] at h
      simp only [Bool.and_eq_true] at h8
      obtain ⟨⟨hc1, hc2⟩, ht⟩ := h8
      obtain ⟨m1, m2, s1, s2, r, hrest, hm1, hm2, hs1, hs2⟩ := isTimeTail_shape rest ht
      exact ⟨h.symm, c1, c2, m1, m2, s1, s2, r, by rw [hrest], hc1, hc2, hm1, hm2, hs1, hs2⟩
    · right
      simp only [Option.some.injEq] at h
      simp only [Bool.and_eq_true] at h7
      obtain ⟨hc1, ht⟩ := h7
      obtain ⟨m1, m2, s1, s2, r, hrest, hm1, hm2, hs1, hs2⟩ := isTimeTail_shape (c2 :: rest) ht
      rw [List.cons.injEq] at hrest
      obtain ⟨hc2, hrest2⟩ := hrest
      exact ⟨h.symm, c1, m1, m2, s1, s2, r, by rw [hc2, hrest2], hc1, hm1, hm2, hs1, hs2⟩

/-- Matches of `timeM` are nonempty. -/
theorem timeM_pos (l : List Char) (n : Nat) (h : timeM l = some n) : 0 < n := by
  rcases timeM_some_shape l n h with ⟨rfl, _⟩ | ⟨rfl, _⟩ <;> omega

/-- Every character inside a `timeM` match is a digit or a colon. -/
theorem timeM_char (l : List Char) (n i : Nat) (c : Char) (h : timeM l = some n)
    (hi : i < n) (hg : l[i]? = some c) : timeChar c = true := by
  rcases timeM_some_shape l n h with
    ⟨rfl, c1, c2, m1, m2, s1, s2, r, rfl, h1, h2, h3, h4, h5, h6⟩ |
    ⟨rfl, c1, m1, m2, s1, s2, r, rfl, h1, h3, h4, h5, h6⟩
  all_goals interval_cases i <;>
    (simp only [List.getElem?_cons_zero, List.getElem?_cons_succ, Option.some.injEq] at hg;
     subst hg; simp [timeChar, h1, h3, h4, h5, h6]) <;> simp [timeChar, h2]

/-- A `timeM` match survives appending on the right. -/
theorem timeM_persist (l e : List Char) (n : Nat) (h : timeM l = some n) :
    ∃ m, timeM (l ++ e) = some m := by
  rcases timeM_some_shape l n h with
    ⟨_, c1, c2, m1, m2, s1, s2, r, rfl, h1, h2, h3, h4, h5, h6⟩ |
    ⟨_, c1, m1, m2, s1, s2, r, rfl, h1, h3, h4, h5, h6⟩
  · refine ⟨8, ?_⟩
    simp only [List.cons_append]
    exact timeM_build8 c1 c2 m1 m2 s1 s2 (r ++ e) h1 h2 h3 h4 h5 h6
  · refine ⟨7, ?_⟩
    simp only [List.cons_append]
    exact timeM_build7 c1 m1 m2 s1 s2 (r ++ e) h1 h3 h4 h5 h6

/-- A `timeM` match that fits inside a prefix is found on the prefix alone. -/
theorem timeM_shrink (u : List Char) (c : Char) (v : List Char) (n : Nat)
    (h : timeM (u ++ c :: v) = some n) (hn : n ≤ u.length) : timeM u = some n := by
  rcases timeM_some_shape _ _ h with
    ⟨rfl, c1, c2, m1, m2, s1, s2, r, heq, h1, h2, h3, h4, h5, h6⟩ |
    ⟨rfl, c1, m1, m2, s1, s2, r, heq, h1, h3, h4, h5, h6⟩
  · rcases u with _ | ⟨u1, _ | ⟨u2, _ | ⟨u3, _ | ⟨u4, _ | ⟨u5, _ | ⟨u6, _ | ⟨u7, _ | ⟨u8, u'⟩⟩⟩⟩⟩⟩⟩⟩ <;>
      simp only [List.length_nil, List.length_cons] at hn <;> try omega
    simp only [List.cons_append, List.cons.injEq] at heq
    obtain ⟨rfl, rfl, rfl, rfl, rfl, rfl, rfl, rfl, _⟩ := heq
    exact timeM_build8 u1 u2 u4 u5 u7 u8 u' h1 h2 h3 h4 h5 h6
  · rcases u with _ | ⟨u1, _ | ⟨u2, _ | ⟨u3, _ | ⟨u4, _ | ⟨u5, _ | ⟨u6, _ | ⟨u7, u'⟩⟩⟩⟩⟩⟩⟩ <;>
      simp only [List.length_nil, List.length_cons] at hn <;> try omega
    simp only [List.cons_append, List.cons.injEq] at heq
    obtain ⟨rfl, rfl, rfl, rfl, rfl, rfl, rfl, _⟩ := heq
    exact timeM_build7 u1 u3 u4 u6 u7 u' h1 h3 h4 h5 h6

/-! ## Lemmas about the date matcher -/

/-- A ten-character `YYYY-MM-DD` prefix matches, whatever follows. -/
theorem dateM_build (y1 y2 y3 y4 m1 m2 d1 d2 : Char) (r : List Char)
    (h1 : y1.isDigit = true) (h2 : y2.isDigit = true) (h3 : y3.isDigit = true)
    (h4 : y4.isDigit = true) (h5 : m1.isDigit = true) (h6 : m2.isDigit = true)
    (h7 : d1.isDigit = true) (h8 : d2.isDigit = true) :
    dateM (y1 :: y2 :: y3 :: y4 :: '-' :: m1 :: m2 :: '-' :: d1 :: d2 :: r) = some 10 := by
  simp [dateM, h1, h2, h3, h4, h5, h6, h7, h8]

/-- Inversion for `dateM`. -/
theorem dateM_some_shape (l : List Char) (n : Nat) (h : dateM l = some n) :
    n = 10 ∧ ∃ y1 y2 y3 y4 m1 m2 d1 d2 r,
      l = y1 :: y2 :: y3 :: y4 :: '-' :: m1 :: m2 :: '-' :: d1 :: d2 :: r ∧
      y1.isDigit = true ∧ y2.isDigit = true ∧ y3.isDigit = true ∧ y4.isDigit = true ∧
      m1.isDigit = true ∧ m2.isDigit = true ∧ d1.isDigit = true ∧ d2.isDigit = true := by
  rcases l with _ | ⟨y1, _ | ⟨y2, _ | ⟨y3, _ | ⟨y4, _ | ⟨a5, _ | ⟨m1, _ | ⟨m2, _ | ⟨a8,
    _ | ⟨d1, _ | ⟨d2, r⟩⟩⟩⟩⟩⟩⟩⟩⟩⟩
  · simp [dateM] at h
  · simp [dateM] at h
  · simp [dateM] at h
  · simp [dateM] at h
  · simp [dateM] at h
  · simp [dateM] at h
  · simp [dateM] at h
  · simp [dateM] at h
  · simp [dateM] at h
  · simp [dateM] at h
  · rw [dateM] at h
    split_ifs at h with hg
    simp only [Option.some.injEq] at h
    simp only [Bool.and_eq_true, beq_iff_eq] at hg
    obtain ⟨⟨⟨⟨⟨⟨⟨⟨⟨hy1, hy2⟩, hy3⟩, hy4⟩, hh1⟩, hm1⟩, hm2⟩, hh2⟩, hd1⟩, hd2⟩ := hg
    subst hh1
    subst hh2
    exact ⟨h.symm, y1, y2, y3, y4, m1, m2, d1, d2, r, rfl,
      hy1, hy2, hy3, hy4, hm1, hm2, hd1, hd2⟩

/-- Matches of `dateM` are nonempty. -/
theorem dateM_pos (l : List Char) (n : Nat) (h : dateM l = some n) : 0 < n := by
  obtain ⟨rfl, -⟩ := dateM_some_shape l n h
  omega

/-- Every character inside a `dateM` match is a digit or a hyphen. -/
theorem dateM_char (l : List Char) (n i : Nat) (c : Char) (h : dateM l = some n)
    (hi : i < n) (hg : l[i]? = some c) : dateChar c = true := by
  obtain ⟨rfl, y1, y2, y3, y4, m1, m2, d1, d2, r, rfl, h1, h2, h3, h4, h5, h6, h7, h8⟩ :=
    dateM_some_shape _ _ h
  interval_cases i <;>
    (simp only [List.getElem?_cons_zero, List.getElem?_cons_succ, Option.some.injEq] at hg;
     subst hg; simp [dateChar, h1, h2, h3, h4, h5, h6, h7, h8])

/-- A `dateM` match survives appending on the right. -/
theorem dateM_persist (l e : List Char) (n : Nat) (h : dateM l = some n) :
    ∃ m, dateM (l ++ e) = some m := by
  obtain ⟨_, y1, y2, y3, y4, m1, m2, d1, d2, r, rfl, h1, h2, h3, h4, h5, h6, h7, h8⟩ :=
    dateM_some_shape _ _ h
  refine ⟨10, ?_⟩
  simp only [List.cons_append]
  exact dateM_build y1 y2 y3 y4 m1 m2 d1 d2 (r ++ e) h1 h2 h3 h4 h5 h6 h7 h8

/-- A `dateM` match that fits inside a prefix is found on the prefix alone. -/
theorem dateM_shrink (u : List Char) (c : Char) (v : List Char) (n : Nat)
    (h : dateM (u ++ c :: v) = some n) (hn : n ≤ u.length) : dateM u = some n := by
  obtain ⟨rfl, y1, y2, y3, y4, m1, m2, d1, d2, r, heq, h1, h2, h3, h4, h5, h6, h7, h8⟩ :=
    dateM_some_shape _ _ h
  rcases u with _ | ⟨u1, _ | ⟨u2, _ | ⟨u3, _ | ⟨u4, _ | ⟨u5, _ | ⟨u6, _ | ⟨u7, _ | ⟨u8,
      _ | ⟨u9, _ | ⟨u10, u'⟩⟩⟩⟩⟩⟩⟩⟩⟩⟩ <;>
    simp only [List.length_nil, List.length_cons] at hn <;> try omega
  simp only [List.cons_append, List.cons.injEq] at heq
  obtain ⟨rfl, rfl, rfl, rfl, rfl, rfl, rfl, rfl, rfl, rfl, _⟩ := heq
  exact dateM_build u1 u2 u3 u4 u6 u7 u9 u10 u' h1 h2 h3 h4 h5 h6 h7 h8

/-! ## Splitting and pass-through corollaries -/

/-- The timestamp substitution splits at any non-digit, non-colon character. -/
theorem subDel_timeM_split (u v : List Char) (c : Char) (hc : timeChar c = false) :
    subDel timeM (u ++ c :: v) = subDel timeM u ++ c :: subDel timeM v :=
  subDel_split timeM timeChar timeM_pos timeM_char timeM_persist timeM_shrink u v c hc

/-- The date substitution splits at any non-digit, non-hyphen character. -/
theorem subDel_dateM_split (u v : List Char) (c : Char) (hc : dateChar c = false) :
    subDel dateM (u ++ c :: v) = subDel dateM u ++ c :: subDel dateM v :=
  subDel_split dateM dateChar dateM_pos dateM_char dateM_persist dateM_shrink u v c hc

/-- A digit is not a colon. -/
theorem digit_ne_colon (x : Char) (hx : x.isDigit = true) : x ≠ ':' := by
  intro he
  subst he
  exact absurd hx (by decide)

/-- Deleting timestamps at the head of an exact time token erases it and
continues on the rest, whatever the rest is. -/
theorem subDel_timeToken_head (t b : List Char) (ht : TimeToken t) :
    subDel timeM (t ++ b) = subDel timeM b := by
  rcases timeM_some_shape t t.length ht with
    ⟨hn, c1, c2, m1, m2, s1, s2, r, heq, h1, h2, h3, h4, h5, h6⟩ |
    ⟨hn, c1, m1, m2, s1, s2, r, heq, h1, h3, h4, h5, h6⟩
  · have hr : r = [] := by
      have hlen := congrArg List.length heq
      rw [hn] at hlen
      simp only [List.length_cons] at hlen
      have : r.length = 0 := by omega
      exact List.eq_nil_of_length_eq_zero this
    subst hr
    subst heq
    have hm : timeM (c1 :: c2 :: ':' :: m1 :: m2 :: ':' :: s1 :: s2 :: b) = some 8 :=
      timeM_build8 c1 c2 m1 m2 s1 s2 b h1 h2 h3 h4 h5 h6
    simp only [List.cons_append, List.nil_append]
    rw [subDel_cons_some timeM _ _ 7 hm]
    rfl
  · have hr : r = [] := by
      have hlen := congrArg List.length heq
      rw [hn] at hlen
      simp only [List.length_cons] at hlen
      have : r.length = 0 := by omega
      exact List.eq_nil_of_length_eq_zero this
    subst hr
    subst heq
    have hm : timeM (c1 :: ':' :: m1 :: m2 :: ':' :: s1 :: s2 :: b) = some 7 :=
      timeM_build7 c1 m1 m2 s1 s2 b h1 h3 h4 h5 h6
    simp only [List.cons_append, List.nil_append]
    rw [subDel_cons_some timeM _ _ 6 hm]
    rfl

/-- Deleting dates at the head of an exact date token erases it and
continues on the rest. -/
theorem subDel_dateToken_head (t b : List Char) (ht : DateToken t) :
    subDel dateM (t ++ b) = subDel dateM b := by
  obtain ⟨hn, y1, y2, y3, y4, m1, m2, d1, d2, r, heq, h1, h2, h3, h4, h5, h6, h7, h8⟩ :=
    dateM_some_shape t t.length ht
  have hr : r = [] := by
    have hlen := congrArg List.length heq
    rw [hn] at hlen
    simp only [List.length_cons] at hlen
    have : r.length = 0 := by omega
    exact List.eq_nil_of_length_eq_zero this
  subst hr
  subst heq
  have hm : dateM (y1 :: y2 :: y3 :: y4 :: '-' :: m1 :: m2 :: '-' :: d1 :: d2 :: b) = some 10 :=
    dateM_build y1 y2 y3 y4 m1 m2 d1 d2 b h1 h2 h3 h4 h5 h6 h7 h8
  simp only [List.cons_append, List.nil_append]
  rw [subDel_cons_some dateM _ _ 9 hm]
  rfl

/-- A date token contains no colon. -/
theorem dateToken_no_colon (t : List Char) (ht : DateToken t) : ∀ x ∈ t, x ≠ ':' := by
  obtain ⟨hn, y1, y2, y3, y4, m1, m2, d1, d2, r, heq, h1, h2, h3, h4, h5, h6, h7, h8⟩ :=
    dateM_some_shape t t.length ht
  have hr : r = [] := by
    have hlen := congrArg List.length heq
    rw [hn] at hlen
    simp only [List.length_cons] at hlen
    have : r.length = 0 := by omega
    exact List.eq_nil_of_length_eq_zero this
  subst hr
  subst heq
  intro x hx
  simp only [List.mem_cons, List.not_mem_nil, or_false] at hx
  rcases hx with rfl | rfl | rfl | rfl | rfl | rfl | rfl | rfl | rfl | rfl
  · exact digit_ne_colon _ h1
  · exact digit_ne_colon _ h2
  · exact digit_ne_colon _ h3
  · exact digit_ne_colon _ h4
  · decide
  · exact digit_ne_colon _ h5
  · exact digit_ne_colon _ h6
  · decide
  · exact digit_ne_colon _ h7
  · exact digit_ne_colon _ h8

/-- The timestamp substitution passes through a colon-free block unchanged,
provided what follows does not start with a digit or a colon. -/
theorem subDel_timeM_passthrough (u b : List Char)
    (hu : ∀ x ∈ u, x ≠ ':')
    (hb : b = [] ∨ ∃ w br, b = w :: br ∧ timeChar w = false) :
    subDel timeM (u ++ b) = u ++ subDel timeM b := by
  induction u with
  | nil => simp
  | cons d u' ih =>
    have hnone : timeM (d :: (u' ++ b)) = none := by
      cases hm : timeM (d :: (u' ++ b)) with
      | none => rfl
      | some n =>
        exfalso
        rcases timeM_some_shape _ _ hm with
          ⟨_, c1, c2, m1, m2, s1, s2, r, heq, _, hc2, _, _, _, _⟩ |
          ⟨_, c1, m1, m2, s1, s2, r, heq, _, _, _, _, _⟩
        · rcases u' with _ | ⟨x1, _ | ⟨x2, u''⟩⟩
          · simp only [List.nil_append, List.cons.injEq] at heq
            obtain ⟨-, hbe⟩ := heq
            rcases hb with rfl | ⟨w, br, rfl, hw⟩
            · cases hbe
            · rw [List.cons.injEq] at hbe
              obtain ⟨hwc, -⟩ := hbe
              rw [hwc] at hw
              simp [timeChar, hc2] at hw
          · simp only [List.cons_append, List.nil_append, List.cons.injEq] at heq
            obtain ⟨-, -, hbe⟩ := heq
            rcases hb with rfl | ⟨w, br, rfl, hw⟩
            · cases hbe
            · rw [List.cons.injEq] at hbe
              obtain ⟨hwc, -⟩ := hbe
              rw [hwc, timeChar] at hw
              simp at hw
          · simp only [List.cons_append, List.cons.injEq] at heq
            obtain ⟨-, -, hx2, -⟩ := heq
            exact hu x2 (by simp) hx2
        · rcases u' with _ | ⟨x1, u''⟩
          · simp only [List.nil_append, List.cons.injEq] at heq
            obtain ⟨-, hbe⟩ := heq
            rcases hb with rfl | ⟨w, br, rfl, hw⟩
            · cases hbe
            · rw [List.cons.injEq] at hbe
              obtain ⟨hwc, -⟩ := hbe
              rw [hwc, timeChar] at hw
              simp at hw
          · simp only [List.cons_append, List.cons.injEq] at heq
            obtain ⟨-, hx1, -⟩ := heq
            exact hu x1 (by simp) hx1
    have hu' : ∀ x ∈ u', x ≠ ':' := fun x hx => hu x (List.mem_cons_of_mem d hx)
    rw [List.cons_append, subDel_cons_none _ _ _ hnone, ih hu', List.cons_append]

/-- A character outside the clock alphabet is outside the timestamp alphabet. -/
theorem clockChar_false_time (c : Char) (h : clockChar c = false) : timeChar c = false := by
  simp only [clockChar, Bool.or_eq_false_iff] at h
  simp [timeChar, h.1.1, h.1.2]

/-- A character outside the clock alphabet is outside the date alphabet. -/
theorem clockChar_false_date (c : Char) (h : clockChar c = false) : dateChar c = false := by
  simp only [clockChar, Bool.or_eq_false_iff] at h
  simp [dateChar, h.1.1, h.2]

/-- After the timestamp and date substitutions, a clock token at the very
start of the content disappears entirely. -/
theorem stage2_nil (t b : List Char) (ht : ClockToken t)
    (hb : b = [] ∨ ∃ w br, b = w :: br ∧ clockChar w = false) :
    subDel dateM (subDel timeM (t ++ b)) = subDel dateM (subDel timeM b) := by
  rcases ht with htt | htd
  · rw [subDel_timeToken_head t b htt]
  · have hb' : b = [] ∨ ∃ w br, b = w :: br ∧ timeChar w = false := by
      rcases hb with rfl | ⟨w, br, rfl, hw⟩
      · exact Or.inl rfl
      · exact Or.inr ⟨w, br, rfl, clockChar_false_time w hw⟩
    rw [subDel_timeM_passthrough t b (dateToken_no_colon t htd) hb']
    exact subDel_dateToken_head t (subDel timeM b) htd

/-- After the timestamp and date substitutions, a clock token separated from
the prefix by a non-clock character disappears entirely. -/
theorem stage2_snoc (a0 : List Char) (cl : Char) (t b : List Char)
    (hcl : clockChar cl = false) (ht : ClockToken t)
    (hb : b = [] ∨ ∃ w br, b = w :: br ∧ clockChar w = false) :
    subDel dateM (subDel timeM ((a0 ++ [cl]) ++ t ++ b)) =
      subDel dateM (subDel timeM a0) ++ cl :: subDel dateM (subDel timeM b) := by
  have hassoc : (a0 ++ [cl]) ++ t ++ b = a0 ++ cl :: (t ++ b) := by simp
  rw [hassoc, subDel_timeM_split a0 (t ++ b) cl (clockChar_false_time cl hcl)]
  rcases ht with htt | htd
  · rw [subDel_timeToken_head t b htt]
    exact subDel_dateM_split _ _ cl (clockChar_false_date cl hcl)
  · have hb' : b = [] ∨ ∃ w br, b = w :: br ∧ timeChar w = false := by
      rcases hb with rfl | ⟨w, br, rfl, hw⟩
      · exact Or.inl rfl
      · exact Or.inr ⟨w, br, rfl, clockChar_false_time w hw⟩
    rw [subDel_timeM_passthrough t b (dateToken_no_colon t htd) hb',
      subDel_dateM_split (subDel timeM a0) (t ++ subDel timeM b) cl
        (clockChar_false_date cl hcl),
      subDel_dateToken_head t (subDel timeM b) htd]

/-- C7 (counterexample): replacing the clock-like token "2:34:56" by the
clock-like token "22:34:56" right after the text "x1" changes the canonical
content ("x" versus "x1") and hence the digest: the claim fails when the
replaced token borders a digit. -/
theorem digest_not_invariant_at_digit_boundary :
    TimeToken (str "2:34:56") ∧ TimeToken (str "22:34:56") ∧
    get_page_hash (fun l => l) (fun l => l) (str "x1" ++ str "2:34:56" ++ ([] : List Char)) ≠
      get_page_hash (fun l => l) (fun l => l) (str "x1" ++ str "22:34:56" ++ ([] : List Char)) := by
  refine ⟨by unfold TimeToken; decide, by unfold TimeToken; decide, by decide⟩

/-- C7 (amended): the page digest is deterministic (for every cleaning and
hashing collaborator, equal raw inputs give equal digests); and replacing a
clock-like token (`\d{1,2}:\d{2}:\d{2}` or `\d{4}-\d{2}-\d{2}`) by any other
clock-like token leaves the digest unchanged provided the characters
adjacent to the token are not digits, colons or hyphens. -/
theorem digest_deterministic_and_token_invariant :
    (∀ (soupClean md5 : List Char → List Char) (h1 h2 : List Char), h1 = h2 →
        get_page_hash soupClean md5 h1 = get_page_hash soupClean md5 h2) ∧
    (∀ (soupClean md5 : List Char → List Char) (a t1 t2 b : List Char),
        (a = [] ∨ ∃ a0 cl, a = a0 ++ [cl] ∧ clockChar cl = false) →
        (b = [] ∨ ∃ w br, b = w :: br ∧ clockChar w = false) →
        ClockToken t1 → ClockToken t2 →
        get_page_hash soupClean md5 (a ++ t1 ++ b) =
          get_page_hash soupClean md5 (a ++ t2 ++ b)) := by
  constructor
  · intro _ _ h1 h2 he
    rw [he]
  · intro soupClean md5 a t1 t2 b ha hb ht1 ht2
    have key : subDel dateM (subDel timeM (a ++ t1 ++ b)) =
        subDel dateM (subDel timeM (a ++ t2 ++ b)) := by
      rcases ha with rfl | ⟨a0, cl, rfl, hcl⟩
      · simp only [List.nil_append]
        rw [stage2_nil t1 b ht1 hb, stage2_nil t2 b ht2 hb]
      · rw [stage2_snoc a0 cl t1 b hcl ht1 hb, stage2_snoc a0 cl t2 b hcl ht2 hb]
    unfold get_page_hash normalize_content
    rw [key]

/-- C7 (witness for `digest_deterministic_and_token_invariant`): swapping
"12:34:56" for "9:08:07" between spaces leaves the digest unchanged, and
determinism at a concrete pair. -/
theorem digest_deterministic_and_token_invariant_witness :
    get_page_hash (fun l => l) (fun l => l) (str "a " ++ str "12:34:56" ++ str " b") =
      get_page_hash (fun l => l) (fun l => l) (str "a " ++ str "9:08:07" ++ str " b") ∧
    get_page_hash (fun l => l) (fun l => l) (str "ok") =
      get_page_hash (fun l => l) (fun l => l) (str "ok") :=
  ⟨digest_deterministic_and_token_invariant.2 (fun l => l) (fun l => l)
      (str "a ") (str "12:34:56") (str "9:08:07") (str " b")
      (Or.inr ⟨str "a", ' ', by decide, by decide⟩)
      (Or.inr ⟨' ', str "b", by decide, by decide⟩)
      (Or.inl (by unfold TimeToken; decide)) (Or.inl (by unfold TimeToken; decide)),
   digest_deterministic_and_token_invariant.1 (fun l => l) (fun l => l)
      (str "ok") (str "ok") rfl⟩
